import Mathlib

/-!
Verification of the CodeCarbon Runner backend (`backend/app/main.py`).

The Python module is shallowly embedded: ambient process environments are
functions `String → Option String`, subprocess execution is an external
outcome parameter, machine floats are modelled as rationals, and raised
exceptions become `Except` errors.
-/

namespace CodeCarbonRunner

/-- The whitespace characters removed by Python `str.strip()` for ASCII
input: space, tab, newline, carriage return, vertical tab, form feed. -/
def isPyWhitespace (c : Char) : Bool :=
  c = ' ' || c = '\t' || c = '\n' || c = '\r' || c = '\x0b' || c = '\x0c'

/-- Python `str.strip()`: remove leading and trailing whitespace. -/
def pyStrip (s : String) : String :=
  String.mk (((s.toList.dropWhile isPyWhitespace).reverse.dropWhile
    isPyWhitespace).reverse)

/-- `_sanitize_environment` (main.py lines 162-170).  The ambient
environment is `env : String → Option String` (`os.getenv` semantics); the
result is the `safe_env` dict as an association list.  The source guards
the PATH entry with `if path:`, which in Python is false both for an
absent PATH (`None`) and for a PATH bound to the empty string. -/
def sanitize_environment (env : String → Option String) :
    List (String × String) :=
  let safe_env := [("PYTHONUNBUFFERED", "1"), ("PYTHONIOENCODING", "utf-8")]
  match env "PATH" with
  | some path => if path = "" then safe_env else safe_env ++ [("PATH", path)]
  | none => safe_env

/-- One emissions measurement record produced by the codecarbon library
(the attributes read by `_collect_tracker_metrics`, main.py lines
152-158).  Machine floats are modelled as rationals. -/
structure EmissionsData where
  emissions : ℚ
  energy_consumed : ℚ
  cpu_energy : ℚ
  gpu_energy : ℚ
  duration : ℚ
  carbon_intensity : Option ℚ
  country_name : Option String
deriving Repr, DecidableEq

/-- The tracker attributes inspected by `_latest_emissions_data` (main.py
lines 127-134): `final_emissions_data` (absent or `None` modelled as
`none`), and `_emissions_data`, which is `some l` exactly when the
attribute exists and is a Python list (the `isinstance(cached, list)`
guard), `none` otherwise. -/
structure TrackerState where
  final_emissions_data : Option EmissionsData
  emissions_data_cache : Option (List EmissionsData)
deriving Repr, DecidableEq

/-- The metrics dictionary built by `_collect_tracker_metrics` and merged
into the response (response-model field names, main.py lines 139-147). -/
structure Metrics where
  emissions : ℚ
  energy_kwh : ℚ
  cpu_energy : ℚ
  gpu_energy : ℚ
  duration : ℚ
  carbon_intensity : Option ℚ
  country : Option String
deriving Repr, DecidableEq

/-- `_latest_emissions_data` (main.py lines 127-134): the finalized record
if present (truthy), else the last element of the cached list when it is a
non-empty list, else `None`. -/
def latest_emissions_data (t : TrackerState) : Option EmissionsData :=
  match t.final_emissions_data with
  | some d => some d
  | none =>
      match t.emissions_data_cache with
      | some cached => if cached.isEmpty then none else cached.getLast?
      | none => none

/-- `_collect_tracker_metrics` (main.py lines 137-159).  Note the default
dictionary maps "country" to the string literal "None" (line 146), while
the data branch copies `country_name` (possibly `None`) from the record. -/
def collect_tracker_metrics (t : TrackerState) : Metrics :=
  match latest_emissions_data t with
  | none =>
      { emissions := 0, energy_kwh := 0, cpu_energy := 0, gpu_energy := 0,
        duration := 0, carbon_intensity := none, country := some "None" }
  | some d =>
      { emissions := d.emissions * 1000, energy_kwh := d.energy_consumed,
        cpu_energy := d.cpu_energy, gpu_energy := d.gpu_energy,
        duration := d.duration, carbon_intensity := d.carbon_intensity,
        country := d.country_name }

/-- The default metrics record of main.py lines 139-147, for stating the
extraction claims. -/
def default_metrics : Metrics :=
  { emissions := 0, energy_kwh := 0, cpu_energy := 0, gpu_energy := 0,
    duration := 0, carbon_intensity := none, country := some "None" }

/-- The data-to-metrics mapping of main.py lines 152-158, for stating the
extraction claims. -/
def metricsFromData (d : EmissionsData) : Metrics :=
  { emissions := d.emissions * 1000, energy_kwh := d.energy_consumed,
    cpu_energy := d.cpu_energy, gpu_energy := d.gpu_energy,
    duration := d.duration, carbon_intensity := d.carbon_intensity,
    country := d.country_name }

/-- A tracker with no finalized record and no cached list. -/
def emptyTracker : TrackerState := ⟨none, none⟩

/-- A concrete ambient environment whose PATH is present but empty. -/
def envWithEmptyPath : String → Option String :=
  fun k => if k = "PATH" then some "" else none

/-- A concrete ambient environment with a non-empty PATH. -/
def envWithUsrBinPath : String → Option String :=
  fun k => if k = "PATH" then some "/usr/bin" else none

/-- The process-wide GPU-tracking state touched by `_disable_gpu_tracking`
(main.py lines 90-98): the `_GPU_TRACKING_ENABLED` flag, the
`CODECARBON_HIDE_GPU` entry of `os.environ`, and whether
`is_gpu_details_available` has been patched to return `False`.
`reconfigCount` is a ghost counter of how many times the fallback
reconfiguration body (lines 94-98) has actually been applied. -/
structure GpuState where
  enabled : Bool
  hideGpuEnv : Option String
  gpuDetectionPatched : Bool
  reconfigCount : Nat
deriving Repr, DecidableEq

/-- The module-initialization state (main.py line 42): GPU tracking
enabled, `CODECARBON_HIDE_GPU` unset, detection unpatched. -/
def initialGpuState : GpuState :=
  { enabled := true, hideGpuEnv := none, gpuDetectionPatched := false,
    reconfigCount := 0 }

/-- `_disable_gpu_tracking` (main.py lines 90-98): an early return when
the flag is already cleared; otherwise clear the flag,
`os.environ.setdefault("CODECARBON_HIDE_GPU", "1")`, and patch GPU
detection to `False`. -/
def disable_gpu_tracking (s : GpuState) : GpuState :=
  if s.enabled then
    { enabled := false,
      hideGpuEnv := some (s.hideGpuEnv.getD "1"),
      gpuDetectionPatched := true,
      reconfigCount := s.reconfigCount + 1 }
  else s

/-- `_ensure_gpu_tracking_state` (main.py lines 101-103): re-apply the
detection patch when tracking is disabled; never touches the flag. -/
def ensure_gpu_tracking_state (s : GpuState) : GpuState :=
  if s.enabled then s else { s with gpuDetectionPatched := true }

/-- The keyword arguments `_create_tracker` assembles for the
`EmissionsTracker` constructor (main.py lines 107-114). -/
structure TrackerKwargs where
  tracking_mode : String
  measure_power_secs : Nat
  log_level : String
  save_to_file : Bool
  country_iso_code : Option String
deriving Repr, DecidableEq

/-- The capability probe of `_create_tracker` (main.py lines 106-116):
`acceptsCountryIsoCode` is the outcome of the
`"country_iso_code" in inspect.signature(EmissionsTracker).parameters`
test, `countryEnv` the ambient `CODECARBON_COUNTRY` entry of
`os.environ`.  Returns the constructor kwargs and the
`CODECARBON_COUNTRY` value after the (possible) `setdefault`. -/
def create_tracker_config (acceptsCountryIsoCode : Bool)
    (countryEnv : Option String) : TrackerKwargs × Option String :=
  let base : TrackerKwargs :=
    { tracking_mode := "process", measure_power_secs := 1,
      log_level := "error", save_to_file := false, country_iso_code := none }
  if acceptsCountryIsoCode then
    ({ base with country_iso_code := some "IND" }, countryEnv)
  else
    (base, some (countryEnv.getD "IND"))

/-- A Python float value as producible by the `float` constructor: a
finite value (modelled as a rational), one of the two infinities, or NaN
(`float("nan")` parses successfully). -/
inductive PyFloat where
  | finite : ℚ → PyFloat
  | inf : PyFloat
  | negInf : PyFloat
  | nan : PyFloat
deriving Repr, DecidableEq

/-- The IEEE-754 comparison `x <= 0` performed at main.py line 35: false
for NaN (every comparison with NaN is false), false for +inf, true for
-inf, and the ordinary order on finite values. -/
def PyFloat.le_zero : PyFloat → Bool
  | PyFloat.finite q => q ≤ 0
  | PyFloat.inf => false
  | PyFloat.negInf => true
  | PyFloat.nan => false

/-- The IEEE-754 comparison `x > 0`: false for NaN, true for +inf, false
for -inf, the ordinary order on finite values.  Used to state that NaN is
not a positive number. -/
def PyFloat.gt_zero : PyFloat → Bool
  | PyFloat.finite q => 0 < q
  | PyFloat.inf => true
  | PyFloat.negInf => false
  | PyFloat.nan => false

/-- `_load_execution_timeout` (main.py lines 27-37).  `envVal` is the
ambient `EXECUTION_TIMEOUT` variable (default "10"); `parseFloat` models
the Python `float` constructor, returning `none` where it raises
`ValueError` and otherwise the parsed IEEE value (possibly an infinity or
NaN); raised `RuntimeError`s become `Except.error`.  The guard is the
source's `timeout <= 0` IEEE comparison, which NaN fails. -/
def load_execution_timeout (envVal : Option String)
    (parseFloat : String → Option PyFloat) : Except String PyFloat :=
  let raw_timeout := pyStrip (envVal.getD "10")
  match parseFloat raw_timeout with
  | none =>
      Except.error ("Invalid EXECUTION_TIMEOUT value \x27" ++ raw_timeout ++
        "\x27. It must be a number.")
  | some timeout =>
      if timeout.le_zero then
        Except.error "EXECUTION_TIMEOUT must be greater than zero."
      else
        Except.ok timeout

/-- The fields of a `subprocess.CompletedProcess` read by `run_python`
(`text=True`, `capture_output=True`). -/
structure CompletedProcess where
  returncode : Int
  stdout : String
  stderr : String
deriving Repr, DecidableEq

/-- The outcome of the `subprocess.run` call of main.py lines 181-188:
either `subprocess.TimeoutExpired` was raised, or the process completed
with some exit status and captured output. -/
inductive ProcOutcome where
  | timedOut : ProcOutcome
  | completed : CompletedProcess → ProcOutcome
deriving Repr, DecidableEq

/-- The successful result of `run_python`: the metrics dictionary with
the captured stdout/stderr merged in (main.py lines 198-201). -/
structure RunResult where
  stdout : String
  stderr : String
  metrics : Metrics
deriving Repr, DecidableEq

/-- `run_python` (main.py lines 173-201).  `timeoutRepr` is the f-string
rendering of the module-level `EXECUTION_TIMEOUT` float; `proc` maps the
script's source text to the external outcome of `subprocess.run`;
`tracker` is the tracker's state after `tracker.stop()`.  A raised
`ExecutionError` becomes `Except.error` carrying its message. -/
def run_python (code : String) (timeoutRepr : String)
    (proc : String → ProcOutcome) (tracker : TrackerState) :
    Except String RunResult :=
  match proc code with
  | ProcOutcome.timedOut =>
      Except.error ("Execution timed out after " ++ timeoutRepr ++
        " seconds.")
  | ProcOutcome.completed completed =>
      if completed.returncode ≠ 0 then
        Except.error
          (if pyStrip completed.stderr = "" then "Execution failed."
           else pyStrip completed.stderr)
      else
        Except.ok { stdout := completed.stdout, stderr := completed.stderr,
                    metrics := collect_tracker_metrics tracker }

/-- The outcome of invoking the Execution Service from the handler:
a normal result, a raised `ExecutionError`, or any other exception
(main.py lines 209-214). -/
inductive ExecOutcome where
  | success : RunResult → ExecOutcome
  | execError : String → ExecOutcome
  | otherError : String → ExecOutcome
deriving Repr, DecidableEq

/-- A handler response: a 200 body or an `HTTPException` with a status
code and detail string. -/
inductive HandlerResult where
  | ok : RunResult → HandlerResult
  | httpError : Nat → String → HandlerResult
deriving Repr, DecidableEq

/-- `run_code` (main.py lines 204-216).  `svc` is the Execution Service:
it maps the request's code to the outcome of `run_python(request.code)`,
including the defensive catch-all branch. -/
def run_code (code : String) (svc : String → ExecOutcome) : HandlerResult :=
  if pyStrip code = "" then
    HandlerResult.httpError 400 "Code payload cannot be empty."
  else
    match svc code with
    | ExecOutcome.success result => HandlerResult.ok result
    | ExecOutcome.execError msg => HandlerResult.httpError 400 msg
    | ExecOutcome.otherError msg =>
        HandlerResult.httpError 500 ("Execution failed: " ++ msg)

/-- A concrete Execution Service whose subprocess always times out. -/
def procAlwaysTimeout : String → ProcOutcome :=
  fun _ => ProcOutcome.timedOut

/-- A concrete completed process: exit status 1, stderr "  boom \n". -/
def procBoom : CompletedProcess :=
  { returncode := 1, stdout := "", stderr := "  boom \n" }

/-- A concrete subprocess outcome returning `procBoom` for any script. -/
def procAlwaysBoom : String → ProcOutcome :=
  fun _ => ProcOutcome.completed procBoom

/-- A concrete Execution Service that always raises
`ExecutionError("boom")`. -/
def svcBoom : String → ExecOutcome :=
  fun _ => ExecOutcome.execError "boom"

/-- A concrete Execution Service that always raises a non-ExecutionError
exception rendering as "oops". -/
def svcOops : String → ExecOutcome :=
  fun _ => ExecOutcome.otherError "oops"

/-- A parse function that fails on every string (models `float` raising
`ValueError`). -/
def parseAlwaysFail : String → Option PyFloat :=
  fun _ => none

/-- A parse function mapping every string to 10 (models `float("10")`). -/
def parseAlwaysTen : String → Option PyFloat :=
  fun _ => some (PyFloat.finite 10)

/-- A parse function mapping every string to -1 (models `float("-1")`). -/
def parseAlwaysNegOne : String → Option PyFloat :=
  fun _ => some (PyFloat.finite (-1))

/-- A parse function mapping every string to NaN (models
`float("nan")`, which succeeds and returns NaN). -/
def parseAlwaysNan : String → Option PyFloat :=
  fun _ => some PyFloat.nan

end CodeCarbonRunner

namespace CodeCarbonRunner

/-- C3 counterexample: in the ambient environment `envWithEmptyPath` the
variable PATH is present (bound to the empty string), yet the sanitized
environment returned by `_sanitize_environment` contains no PATH key, so
PATH is not included "if and only if PATH is present". -/
theorem sanitize_environment_empty_path_counterexample :
    envWithEmptyPath "PATH" = some "" ∧
      List.lookup "PATH" (sanitize_environment envWithEmptyPath) = none := by
  constructor
  · rfl
  · rfl

/-- C3 (amended): for every ambient environment, the sanitized environment
binds exactly PYTHONUNBUFFERED to "1" and PYTHONIOENCODING to "utf-8",
plus PATH (to its ambient value) if and only if PATH is present in the
ambient environment with a non-empty value; every other key is absent. -/
theorem sanitize_environment_spec (env : String → Option String)
    (k : String) (hk1 : k ≠ "PYTHONUNBUFFERED") (hk2 : k ≠ "PYTHONIOENCODING")
    (hk3 : k ≠ "PATH") :
    List.lookup "PYTHONUNBUFFERED" (sanitize_environment env) = some "1" ∧
    List.lookup "PYTHONIOENCODING" (sanitize_environment env) = some "utf-8" ∧
    List.lookup "PATH" (sanitize_environment env) =
      (match env "PATH" with
       | some path => if path = "" then none else some path
       | none => none) ∧
    List.lookup k (sanitize_environment env) = none := by
  have hb1 : (k == "PYTHONUNBUFFERED") = false := beq_eq_false_iff_ne.mpr hk1
  have hb2 : (k == "PYTHONIOENCODING") = false := beq_eq_false_iff_ne.mpr hk2
  have hb3 : (k == "PATH") = false := beq_eq_false_iff_ne.mpr hk3
  unfold sanitize_environment
  cases hpath : env "PATH" with
  | none =>
      refine ⟨rfl, rfl, rfl, ?_⟩
      simp [List.lookup, hb1, hb2]
  | some path =>
      by_cases hempty : path = ""
      · subst hempty
        refine ⟨rfl, rfl, rfl, ?_⟩
        simp [List.lookup, hb1, hb2]
      · refine ⟨?_, ?_, ?_, ?_⟩ <;>
          simp [List.lookup, hempty, hb1, hb2, hb3]

/-- C3 witness: the amended characterization evaluated on a concrete
ambient environment with a non-empty PATH, at the foreign key HOME. -/
theorem sanitize_environment_spec_witness :
    List.lookup "PYTHONUNBUFFERED" (sanitize_environment envWithUsrBinPath) =
      some "1" ∧
    List.lookup "PYTHONIOENCODING" (sanitize_environment envWithUsrBinPath) =
      some "utf-8" ∧
    List.lookup "PATH" (sanitize_environment envWithUsrBinPath) =
      some "/usr/bin" ∧
    List.lookup "HOME" (sanitize_environment envWithUsrBinPath) = none := by
  have h := sanitize_environment_spec envWithUsrBinPath "HOME"
    (by decide) (by decide) (by decide)
  exact ⟨h.1, h.2.1, h.2.2.1.trans (by rfl), h.2.2.2⟩

/-- Helper: `_disable_gpu_tracking` leaves the GPU-tracking flag cleared. -/
theorem disable_gpu_tracking_enabled_eq_false (s : GpuState) :
    (disable_gpu_tracking s).enabled = false := by
  unfold disable_gpu_tracking
  by_cases h : s.enabled = true
  · simp [h]
  · simp [h]

/-- Helper: when the flag is already cleared, `_disable_gpu_tracking`
returns without changing anything. -/
theorem disable_gpu_tracking_fixed (s : GpuState) (h : s.enabled = false) :
    disable_gpu_tracking s = s := by
  unfold disable_gpu_tracking
  simp [h]

/-- C5: the GPU-tracking flag only transitions from enabled to disabled:
after any call to `_disable_gpu_tracking` the flag is cleared, a repeated
call is a no-op, `_ensure_gpu_tracking_state` never changes the flag, and
starting from the module-initial state any positive number of calls
leaves the same state as one call, with the fallback reconfiguration body
applied exactly once. -/
theorem gpu_tracking_one_way (s : GpuState) (n : Nat) :
    (disable_gpu_tracking s).enabled = false ∧
    disable_gpu_tracking (disable_gpu_tracking s) = disable_gpu_tracking s ∧
    (ensure_gpu_tracking_state s).enabled = s.enabled ∧
    disable_gpu_tracking^[n + 1] initialGpuState =
      disable_gpu_tracking initialGpuState ∧
    (disable_gpu_tracking^[n + 1] initialGpuState).reconfigCount = 1 := by
  have hiter : disable_gpu_tracking^[n + 1] initialGpuState =
      disable_gpu_tracking initialGpuState := by
    rw [Function.iterate_succ_apply]
    exact Function.iterate_fixed
      (disable_gpu_tracking_fixed _
        (disable_gpu_tracking_enabled_eq_false initialGpuState)) n
  refine ⟨disable_gpu_tracking_enabled_eq_false s, ?_, ?_, hiter, ?_⟩
  · exact disable_gpu_tracking_fixed _ (disable_gpu_tracking_enabled_eq_false s)
  · unfold ensure_gpu_tracking_state
    by_cases h : s.enabled = true
    · simp [h]
    · simp [h]
  · rw [hiter]
    rfl

/-- C6: metrics extraction is total over every tracker state: it maps the
finalized record when present, otherwise the last element of a non-empty
cached record list, otherwise the default record — so it always returns a
metrics dictionary and never fails. -/
theorem collect_tracker_metrics_total (d : EmissionsData)
    (cache : Option (List EmissionsData)) (l : List EmissionsData) :
    collect_tracker_metrics ⟨some d, cache⟩ = metricsFromData d ∧
    collect_tracker_metrics ⟨none, some (l ++ [d])⟩ = metricsFromData d ∧
    collect_tracker_metrics ⟨none, some []⟩ = default_metrics ∧
    collect_tracker_metrics ⟨none, none⟩ = default_metrics := by
  refine ⟨rfl, ?_, rfl, rfl⟩
  simp [collect_tracker_metrics, latest_emissions_data, metricsFromData,
    List.getLast?_concat]

/-- C7 counterexample: with no measurement data at all, the country field
of the returned record is the literal string "None", not absent/null. -/
theorem default_country_counterexample :
    (collect_tracker_metrics emptyTracker).country = some "None" := rfl

/-- C7 (amended): when no measurement data exists, the returned record has
emissions, energy_kwh, cpu_energy, gpu_energy and duration all equal to
zero and carbon_intensity absent, while country is the literal string
"None" rather than null. -/
theorem default_record_values :
    (collect_tracker_metrics emptyTracker).emissions = 0 ∧
    (collect_tracker_metrics emptyTracker).energy_kwh = 0 ∧
    (collect_tracker_metrics emptyTracker).cpu_energy = 0 ∧
    (collect_tracker_metrics emptyTracker).gpu_energy = 0 ∧
    (collect_tracker_metrics emptyTracker).duration = 0 ∧
    (collect_tracker_metrics emptyTracker).carbon_intensity = none ∧
    (collect_tracker_metrics emptyTracker).country = some "None" :=
  ⟨rfl, rfl, rfl, rfl, rfl, rfl, rfl⟩

/-- C8: tracker construction probes whether the constructor accepts the
country-code parameter: when accepted, `country_iso_code = "IND"` is
passed in the kwargs and the `CODECARBON_COUNTRY` environment entry is
untouched; when not accepted, the kwargs omit the parameter and the
environment entry is set to "IND" unless already present (`setdefault`);
in both branches the fixed kwargs are assembled and construction
proceeds. -/
theorem create_tracker_country_probe (countryEnv : Option String)
    (accepts : Bool) :
    (create_tracker_config true countryEnv).1.country_iso_code =
      some "IND" ∧
    (create_tracker_config true countryEnv).2 = countryEnv ∧
    (create_tracker_config false countryEnv).1.country_iso_code = none ∧
    (create_tracker_config false countryEnv).2 =
      some (countryEnv.getD "IND") ∧
    (create_tracker_config accepts countryEnv).1.tracking_mode =
      "process" ∧
    (create_tracker_config accepts countryEnv).1.measure_power_secs = 1 ∧
    (create_tracker_config accepts countryEnv).1.log_level = "error" ∧
    (create_tracker_config accepts countryEnv).1.save_to_file = false := by
  cases accepts <;> exact ⟨rfl, rfl, rfl, rfl, rfl, rfl, rfl, rfl⟩

/-- C9 counterexample: the string "nan" parses successfully to NaN, NaN
is not a positive number (the IEEE comparison `NaN > 0` is false), and
yet loading succeeds and the process starts with a NaN timeout — so
loading does not fail on every string that fails to parse to a positive
number. -/
theorem load_execution_timeout_nan_counterexample :
    parseAlwaysNan (pyStrip ((some "nan").getD "10")) =
      some PyFloat.nan ∧
    PyFloat.gt_zero PyFloat.nan = false ∧
    load_execution_timeout (some "nan") parseAlwaysNan =
      Except.ok PyFloat.nan :=
  ⟨rfl, rfl, rfl⟩

/-- C9 (amended): when the (stripped, defaulted) raw value does not
parse, loading fails with an error (the process cannot start); when it
parses to a value for which the IEEE comparison `value <= 0` is true (a
non-positive finite value or -inf), loading also fails; when that
comparison is false (a positive finite value, +inf, or NaN — NaN fails
every comparison), the parsed value becomes the timeout; in particular
every positive finite parse becomes the timeout. -/
theorem load_execution_timeout_spec (envVal : Option String)
    (parseFloat : String → Option PyFloat) :
    (parseFloat (pyStrip (envVal.getD "10")) = none →
      ∃ msg, load_execution_timeout envVal parseFloat =
        Except.error msg) ∧
    (∀ t, parseFloat (pyStrip (envVal.getD "10")) = some t →
      t.le_zero = true →
      ∃ msg, load_execution_timeout envVal parseFloat =
        Except.error msg) ∧
    (∀ t, parseFloat (pyStrip (envVal.getD "10")) = some t →
      t.le_zero = false →
      load_execution_timeout envVal parseFloat = Except.ok t) ∧
    (∀ q : ℚ, parseFloat (pyStrip (envVal.getD "10")) =
        some (PyFloat.finite q) → 0 < q →
      load_execution_timeout envVal parseFloat =
        Except.ok (PyFloat.finite q)) := by
  have hok : ∀ t, parseFloat (pyStrip (envVal.getD "10")) = some t →
      t.le_zero = false →
      load_execution_timeout envVal parseFloat = Except.ok t := by
    intro t h hle
    simp [load_execution_timeout, h, hle]
  refine ⟨?_, ?_, hok, ?_⟩
  · intro h
    refine ⟨"Invalid EXECUTION_TIMEOUT value \x27" ++
      pyStrip (envVal.getD "10") ++ "\x27. It must be a number.", ?_⟩
    simp [load_execution_timeout, h]
  · intro t h hle
    refine ⟨"EXECUTION_TIMEOUT must be greater than zero.", ?_⟩
    simp [load_execution_timeout, h, hle]
  · intro q h hpos
    exact hok (PyFloat.finite q) h
      (by simp [PyFloat.le_zero, not_le.mpr hpos])

/-- C9 witness: loading fails on a non-parsing value and on a negative
value, succeeds with the parsed value on a positive one, and lets a NaN
parse through as the timeout. -/
theorem load_execution_timeout_spec_witness :
    (∃ msg, load_execution_timeout (some "abc") parseAlwaysFail =
      Except.error msg) ∧
    (∃ msg, load_execution_timeout (some "-1") parseAlwaysNegOne =
      Except.error msg) ∧
    load_execution_timeout none parseAlwaysTen =
      Except.ok (PyFloat.finite 10) ∧
    load_execution_timeout (some "nan") parseAlwaysNan =
      Except.ok PyFloat.nan := by
  refine ⟨?_, ?_, ?_, ?_⟩
  · exact (load_execution_timeout_spec (some "abc") parseAlwaysFail).1 rfl
  · exact (load_execution_timeout_spec (some "-1") parseAlwaysNegOne).2.1
      (PyFloat.finite (-1)) rfl (by decide)
  · exact (load_execution_timeout_spec none parseAlwaysTen).2.2.2
      10 rfl (by norm_num)
  · exact (load_execution_timeout_spec (some "nan") parseAlwaysNan).2.2.1
      PyFloat.nan rfl rfl

/-- C1: when the subprocess completes with a non-zero exit status,
`run_python` fails with an ExecutionError whose message is the trimmed
stderr, or the fixed string "Execution failed." when the trimmed stderr
is empty. -/
theorem run_python_nonzero_exit (code timeoutRepr : String)
    (proc : String → ProcOutcome) (tracker : TrackerState)
    (p : CompletedProcess) (hproc : proc code = ProcOutcome.completed p)
    (hret : p.returncode ≠ 0) :
    run_python code timeoutRepr proc tracker =
      Except.error
        (if pyStrip p.stderr = "" then "Execution failed."
         else pyStrip p.stderr) := by
  unfold run_python
  rw [hproc]
  simp [hret]

/-- C1 witness: a process exiting 1 with stderr "  boom \n" makes
`run_python` fail with message "boom". -/
theorem run_python_nonzero_exit_witness :
    procAlwaysBoom "print(1)" = ProcOutcome.completed procBoom ∧
    procBoom.returncode ≠ 0 ∧
    run_python "print(1)" "10.0" procAlwaysBoom emptyTracker =
      Except.error "boom" := by
  refine ⟨rfl, by decide, ?_⟩
  rw [run_python_nonzero_exit "print(1)" "10.0" procAlwaysBoom emptyTracker
    procBoom rfl (by decide)]
  rfl

/-- C2: when the subprocess exceeds the configured wall-clock timeout,
`run_python` fails with an ExecutionError whose message embeds the
rendering of the configured timeout value, and it returns no normal
result. -/
theorem run_python_timeout (code timeoutRepr : String)
    (proc : String → ProcOutcome) (tracker : TrackerState)
    (hproc : proc code = ProcOutcome.timedOut) :
    run_python code timeoutRepr proc tracker =
      Except.error ("Execution timed out after " ++ timeoutRepr ++
        " seconds.") ∧
    ∀ r : RunResult,
      run_python code timeoutRepr proc tracker ≠ Except.ok r := by
  unfold run_python
  rw [hproc]
  exact ⟨rfl, fun r h => Except.noConfusion h⟩

/-- C2 witness: with a timeout rendered as "10.0", a timed-out run fails
with the literal timeout message. -/
theorem run_python_timeout_witness :
    run_python "while True: pass" "10.0" procAlwaysTimeout emptyTracker =
      Except.error "Execution timed out after 10.0 seconds." :=
  ((run_python_timeout "while True: pass" "10.0" procAlwaysTimeout
    emptyTracker rfl).1).trans (by rfl)

/-- C4: the handler rejects whitespace-only payloads with a 400 without
invoking the Execution Service (the response is independent of the
service), and otherwise maps an ExecutionError to a 400 carrying its
message, any other exception to a 500 with a wrapped message, and a
normal result to a 200 response. -/
theorem run_code_spec (code : String) (svc svcB : String → ExecOutcome) :
    (pyStrip code = "" →
      run_code code svc =
        HandlerResult.httpError 400 "Code payload cannot be empty." ∧
      run_code code svc = run_code code svcB) ∧
    (pyStrip code ≠ "" →
      (∀ msg, svc code = ExecOutcome.execError msg →
        run_code code svc = HandlerResult.httpError 400 msg) ∧
      (∀ msg, svc code = ExecOutcome.otherError msg →
        run_code code svc =
          HandlerResult.httpError 500 ("Execution failed: " ++ msg)) ∧
      (∀ r, svc code = ExecOutcome.success r →
        run_code code svc = HandlerResult.ok r)) := by
  constructor
  · intro h
    constructor <;> simp [run_code, h]
  · intro h
    refine ⟨?_, ?_, ?_⟩ <;> intro x hx <;> simp [run_code, h, hx]

/-- C4 witness: a whitespace-only payload yields the fixed 400 under two
different services, an ExecutionError "boom" yields a 400 "boom", and a
non-ExecutionError "oops" yields a wrapped 500. -/
theorem run_code_spec_witness :
    run_code "   " svcBoom =
      HandlerResult.httpError 400 "Code payload cannot be empty." ∧
    run_code "   " svcBoom = run_code "   " svcOops ∧
    run_code "x = 1" svcBoom = HandlerResult.httpError 400 "boom" ∧
    run_code "x = 1" svcOops =
      HandlerResult.httpError 500 "Execution failed: oops" := by
  refine ⟨?_, ?_, ?_, ?_⟩
  · exact ((run_code_spec "   " svcBoom svcOops).1 (by rfl)).1
  · exact ((run_code_spec "   " svcBoom svcOops).1 (by rfl)).2
  · exact ((run_code_spec "x = 1" svcBoom svcBoom).2 (by decide)).1
      "boom" rfl
  · exact (((run_code_spec "x = 1" svcOops svcOops).2 (by decide)).2.1
      "oops" rfl).trans (by rfl)

/-- C10: in the data branch of metrics extraction, the emissions field is
the record's raw emissions value multiplied by 1000, while energy_kwh,
cpu_energy, gpu_energy and duration are passed through unscaled. -/
theorem emissions_unit_conversion (d : EmissionsData)
    (cache : Option (List EmissionsData)) :
    (collect_tracker_metrics ⟨some d, cache⟩).emissions =
      d.emissions * 1000 ∧
    (collect_tracker_metrics ⟨some d, cache⟩).energy_kwh =
      d.energy_consumed ∧
    (collect_tracker_metrics ⟨some d, cache⟩).cpu_energy = d.cpu_energy ∧
    (collect_tracker_metrics ⟨some d, cache⟩).gpu_energy = d.gpu_energy ∧
    (collect_tracker_metrics ⟨some d, cache⟩).duration = d.duration :=
  ⟨rfl, rfl, rfl, rfl, rfl⟩

end CodeCarbonRunner
